import Mathlib

/-!
Verification development for the hera-workflows configuration layer
(`src/hera/affinity.py`, `src/hera/v1/workflow_service.py`).

The builder classes of `affinity.py` are embedded as Lean structures whose
fields carry `Option` exactly where the Python attribute is `Optional`.
Each `get_spec` method is translated line by line.  Python exceptions
(a `TypeError` raised by iterating `None`, or by calling a constructor
without a mandatory positional argument) are modelled with `Except PyErr`:
a method that cannot raise keeps a pure return type, a method that can
raise returns `Except PyErr α`.

The `argo_workflows` wire model classes are embedded as `Argo…` structures
holding exactly the attributes the source passes to them; an attribute the
source never passes (such as `ArgoLabelSelector.match_labels`) is kept as a
field that is always `none`, so that dropped data is observable.
-/

/-- Python exceptions that the translated code can raise. -/
inductive PyErr where
  /-- `TypeError: 'NoneType' object is not iterable` (a list comprehension
  over an attribute equal to `None`). -/
  | noneNotIterable
  /-- `TypeError: __init__() missing 1 required positional argument`
  (constructor call with a mandatory parameter left unset). -/
  | missingRequiredArgument
deriving DecidableEq, Repr

deriving instance DecidableEq for Except

/-- Left-to-right effectful map: the embedding of a Python list
comprehension `[f(x) for x in l]` whose body may raise.  Evaluation stops
at the first raised exception, as in Python. -/
def mapEx (f : α → Except PyErr β) : List α → Except PyErr (List β)
  | [] => .ok []
  | x :: xs =>
    match f x with
    | .ok b =>
      match mapEx f xs with
      | .ok bs => .ok (b :: bs)
      | .error e => .error e
    | .error e => .error e

/-- The embedding of `[f(x) for x in l] if l is not None else None`. -/
def optListEx (f : α → Except PyErr β) : Option (List α) → Except PyErr (Option (List β))
  | some l =>
    match mapEx f l with
    | .ok bs => .ok (some bs)
    | .error e => .error e
  | none => .ok none

/-! ## Wire model (`argo_workflows.models`, as constructed by the source) -/

/-- `ArgoNodeSelectorRequirement`: the source passes only `values`. -/
structure ArgoNodeSelectorRequirement where
  values : List String
deriving DecidableEq, Repr

/-- `ArgoNodeSelectorTerm`: `match_expressions` / `match_fields` lists; the
source builds them from child `get_spec` calls that may return `None`, so
the element type is `Option`. -/
structure ArgoNodeSelectorTerm where
  match_expressions : List (Option ArgoNodeSelectorRequirement)
  match_fields : List (Option ArgoNodeSelectorRequirement)
deriving DecidableEq, Repr

/-- `ArgoNodeSelector`: a composite selector wrapping a list of terms. -/
structure ArgoNodeSelector where
  node_selector_terms : List (Option ArgoNodeSelectorTerm)
deriving DecidableEq, Repr

/-- `ArgoPreferredSchedulingTerm`: `{preference, weight}`. -/
structure ArgoPreferredSchedulingTerm where
  preference : ArgoNodeSelector
  weight : Int
deriving DecidableEq, Repr

/-- `ArgoLabelSelectorRequirement`: `{key, operator, values}` with the
operator already serialized to its wire string. -/
structure ArgoLabelSelectorRequirement where
  key : String
  operator : String
  values : Option (List String)
deriving DecidableEq, Repr

/-- `ArgoLabelSelector`.  The generated model also carries a
`match_labels` attribute; the source constructs the model passing only
`match_expressions`, so `match_labels` is always `none` here. -/
structure ArgoLabelSelector where
  match_expressions : List ArgoLabelSelectorRequirement
  match_labels : Option (List (String × String))
deriving DecidableEq, Repr

/-- `ArgoPodAffinityTerm`: topology key plus optional selectors. -/
structure ArgoPodAffinityTerm where
  topology_key : String
  label_selector : Option ArgoLabelSelector
  namespace_selector : Option ArgoLabelSelector
  namespaces : Option (List String)
deriving DecidableEq, Repr

/-- `ArgoWeightedPodAffinityTerm`: `{pod_affinity_term, weight}`. -/
structure ArgoWeightedPodAffinityTerm where
  pod_affinity_term : ArgoPodAffinityTerm
  weight : Int
deriving DecidableEq, Repr

/-- `ArgoPodAffinity`: two independently optional term lists. -/
structure ArgoPodAffinity where
  preferred_during_scheduling_ignored_during_execution : Option (List ArgoWeightedPodAffinityTerm)
  required_during_scheduling_ignored_during_execution : Option (List ArgoPodAffinityTerm)
deriving DecidableEq, Repr

/-- `ArgoPodAntiAffinity`: same shape as `ArgoPodAffinity`. -/
structure ArgoPodAntiAffinity where
  preferred_during_scheduling_ignored_during_execution : Option (List ArgoWeightedPodAffinityTerm)
  required_during_scheduling_ignored_during_execution : Option (List ArgoPodAffinityTerm)
deriving DecidableEq, Repr

/-- `ArgoNodeAffinity`.  The required field records exactly the value the
source assigns to it: `NodeAffinity.get_spec` passes the result of
`NodeSelectorTerm.get_spec()`, which is a bare `ArgoNodeSelectorTerm`
(never an `ArgoNodeSelector`). -/
structure ArgoNodeAffinity where
  preferred_during_scheduling_ignored_during_execution : Option (List ArgoPreferredSchedulingTerm)
  required_during_scheduling_ignored_during_execution : Option ArgoNodeSelectorTerm
deriving DecidableEq, Repr

/-- `ArgoAffinity`: the three optional category records. -/
structure ArgoAffinity where
  pod_affinity : Option ArgoPodAffinity
  pod_anti_affinity : Option ArgoPodAntiAffinity
  node_affinity : Option ArgoNodeAffinity
deriving DecidableEq, Repr

/-! ## Builder classes (`hera/affinity.py`) -/

/-- `NodeSelectorRequirement` (aliased `Expression` and `Field`): holds an
optional list of values. -/
structure NodeSelectorRequirement where
  values : Option (List String)
deriving DecidableEq, Repr

/-- `NodeSelectorRequirement.get_spec`: returns a wire record iff `values`
is not `None`.  The method cannot raise. -/
def NodeSelectorRequirement.get_spec (r : NodeSelectorRequirement) :
    Option ArgoNodeSelectorRequirement :=
  match r.values with
  | some v => some ⟨v⟩
  | none => none

/-- `NodeSelectorTerm`: optional expression list and optional field list
(the constructor defaults `fields` to `None`). -/
structure NodeSelectorTerm where
  expressions : Option (List NodeSelectorRequirement)
  fields : Option (List NodeSelectorRequirement)
deriving DecidableEq, Repr

/-- `NodeSelectorTerm.get_spec`: guarded by
`expressions is not None or fields is not None`, then both comprehensions
run unconditionally — iterating the one that is `None` raises
`TypeError`. -/
def NodeSelectorTerm.get_spec (t : NodeSelectorTerm) :
    Except PyErr (Option ArgoNodeSelectorTerm) :=
  if t.expressions.isSome || t.fields.isSome then
    match t.expressions with
    | some es =>
      match t.fields with
      | some fs =>
        .ok (some ⟨es.map NodeSelectorRequirement.get_spec,
                   fs.map NodeSelectorRequirement.get_spec⟩)
      | none => .error .noneNotIterable
    | none => .error .noneNotIterable
  else .ok none

/-- `PreferredSchedulingTerm`: mandatory term list and weight. -/
structure PreferredSchedulingTerm where
  node_selector_terms : List NodeSelectorTerm
  weight : Int
deriving DecidableEq, Repr

/-- `PreferredSchedulingTerm.get_spec`: always returns a record whose
`preference` wraps the materialized terms in an `ArgoNodeSelector`; a
child term may raise. -/
def PreferredSchedulingTerm.get_spec (p : PreferredSchedulingTerm) :
    Except PyErr ArgoPreferredSchedulingTerm :=
  match mapEx NodeSelectorTerm.get_spec p.node_selector_terms with
  | .ok ts => .ok ⟨⟨ts⟩, p.weight⟩
  | .error e => .error e

/-- `LabelOperator`: the four-variant operator enum. -/
inductive LabelOperator where
  | In
  | NotIn
  | Exists
  | DoesNotExist
deriving DecidableEq, Repr

/-- `LabelOperator.value`: the string each enum member carries. -/
def LabelOperator.value : LabelOperator → String
  | .In => "In"
  | .NotIn => "NotIn"
  | .Exists => "Exists"
  | .DoesNotExist => "DoesNotExist"

/-- `LabelSelectorRequirement`: mandatory key and operator, optional
values. -/
structure LabelSelectorRequirement where
  key : String
  operator : LabelOperator
  values : Option (List String)
deriving DecidableEq, Repr

/-- `LabelSelectorRequirement.get_spec`: unconditionally returns the wire
record with the operator serialized through `.value`. -/
def LabelSelectorRequirement.get_spec (r : LabelSelectorRequirement) :
    ArgoLabelSelectorRequirement :=
  ⟨r.key, r.operator.value, r.values⟩

/-- `LabelSelector`: optional requirement list and optional label map
(embedded as an association list). -/
structure LabelSelector where
  match_expressions : Option (List LabelSelectorRequirement)
  match_labels : Option (List (String × String))
deriving DecidableEq, Repr

/-- `LabelSelector.get_spec`: guarded by
`match_expressions is not None or match_labels is not None`, then the
comprehension iterates `match_expressions` unconditionally — raising
`TypeError` when it is `None` — and `match_labels` is never forwarded to
the wire record. -/
def LabelSelector.get_spec (s : LabelSelector) :
    Except PyErr (Option ArgoLabelSelector) :=
  if s.match_expressions.isSome || s.match_labels.isSome then
    match s.match_expressions with
    | some es => .ok (some ⟨es.map LabelSelectorRequirement.get_spec, none⟩)
    | none => .error .noneNotIterable
  else .ok none

/-- `PodAffinityTerm`: mandatory topology key, optional selectors and
namespace list. -/
structure PodAffinityTerm where
  topology_key : String
  label_selector : Option LabelSelector
  namespace_selector : Option LabelSelector
  namespaces : Option (List String)
deriving DecidableEq, Repr

/-- `PodAffinityTerm`'s Python constructor call: `topology_key` is a
mandatory positional parameter with no default, so a call that leaves it
unset raises `TypeError` before any field is assigned; the optional
parameters default to `None`. -/
def PodAffinityTerm.construct (topology_key : Option String)
    (label_selector namespace_selector : Option LabelSelector)
    (namespaces : Option (List String)) : Except PyErr PodAffinityTerm :=
  match topology_key with
  | some k => .ok ⟨k, label_selector, namespace_selector, namespaces⟩
  | none => .error .missingRequiredArgument

/-- `PodAffinityTerm.get_spec`: always returns a record; each selector is
materialized when present (which may raise) and `namespaces` is passed
through verbatim. -/
def PodAffinityTerm.get_spec (t : PodAffinityTerm) :
    Except PyErr ArgoPodAffinityTerm :=
  match (match t.label_selector with
         | some s => s.get_spec
         | none => Except.ok none) with
  | .error e => .error e
  | .ok ls =>
    match (match t.namespace_selector with
           | some s => s.get_spec
           | none => Except.ok none) with
    | .error e => .error e
    | .ok ns => .ok ⟨t.topology_key, ls, ns, t.namespaces⟩

/-- `WeightedPodAffinityTerm`: a weight around one `PodAffinityTerm`. -/
structure WeightedPodAffinityTerm where
  pod_affinity_term : PodAffinityTerm
  weight : Int
deriving DecidableEq, Repr

/-- `WeightedPodAffinityTerm.get_spec`: `{materialized term, weight}`. -/
def WeightedPodAffinityTerm.get_spec (w : WeightedPodAffinityTerm) :
    Except PyErr ArgoWeightedPodAffinityTerm :=
  match w.pod_affinity_term.get_spec with
  | .ok t => .ok ⟨t, w.weight⟩
  | .error e => .error e

/-- `PodAffinity`: two optional term lists. -/
structure PodAffinity where
  preferred_during_scheduling_ignored_during_execution : Option (List WeightedPodAffinityTerm)
  required_during_scheduling_ignored_during_execution : Option (List PodAffinityTerm)
deriving DecidableEq, Repr

/-- `PodAffinity.get_spec`: absent iff both fields are `None`; each inner
conditional tests `is not None`, so a present empty list is forwarded as a
present empty array. -/
def PodAffinity.get_spec (p : PodAffinity) :
    Except PyErr (Option ArgoPodAffinity) :=
  if p.preferred_during_scheduling_ignored_during_execution.isSome
      || p.required_during_scheduling_ignored_during_execution.isSome then
    match optListEx WeightedPodAffinityTerm.get_spec
        p.preferred_during_scheduling_ignored_during_execution with
    | .error e => .error e
    | .ok pr =>
      match optListEx PodAffinityTerm.get_spec
          p.required_during_scheduling_ignored_during_execution with
      | .error e => .error e
      | .ok rq => .ok (some ⟨pr, rq⟩)
  else .ok none

/-- `PodAntiAffinity`: same fields as `PodAffinity`. -/
structure PodAntiAffinity where
  preferred_during_scheduling_ignored_during_execution : Option (List WeightedPodAffinityTerm)
  required_during_scheduling_ignored_during_execution : Option (List PodAffinityTerm)
deriving DecidableEq, Repr

/-- `PodAntiAffinity.get_spec`: identical logic to `PodAffinity.get_spec`
targeting the anti-affinity wire type. -/
def PodAntiAffinity.get_spec (p : PodAntiAffinity) :
    Except PyErr (Option ArgoPodAntiAffinity) :=
  if p.preferred_during_scheduling_ignored_during_execution.isSome
      || p.required_during_scheduling_ignored_during_execution.isSome then
    match optListEx WeightedPodAffinityTerm.get_spec
        p.preferred_during_scheduling_ignored_during_execution with
    | .error e => .error e
    | .ok pr =>
      match optListEx PodAffinityTerm.get_spec
          p.required_during_scheduling_ignored_during_execution with
      | .error e => .error e
      | .ok rq => .ok (some ⟨pr, rq⟩)
  else .ok none

/-- `NodeAffinity`: an optional list of preferred terms and an optional
single required `NodeSelectorTerm`. -/
structure NodeAffinity where
  preferred_during_scheduling_ignored_during_execution : Option (List PreferredSchedulingTerm)
  required_during_scheduling_ignored_during_execution : Option NodeSelectorTerm
deriving DecidableEq, Repr

/-- `NodeAffinity.get_spec`: the outer guard tests `is not None` but the
inner conditionals test truthiness (`if self.preferred…` /
`if self.required…`), so a present empty preferred list is falsy and maps
to `None`, while the required object (always truthy when present) is
materialized to the bare `ArgoNodeSelectorTerm` its own `get_spec`
returns. -/
def NodeAffinity.get_spec (n : NodeAffinity) :
    Except PyErr (Option ArgoNodeAffinity) :=
  if n.preferred_during_scheduling_ignored_during_execution.isSome
      || n.required_during_scheduling_ignored_during_execution.isSome then
    match (match n.preferred_during_scheduling_ignored_during_execution with
           | some l =>
             if l = [] then Except.ok none
             else
               match mapEx PreferredSchedulingTerm.get_spec l with
               | .ok ts => .ok (some ts)
               | .error e => .error e
           | none => Except.ok none) with
    | .error e => .error e
    | .ok pr =>
      match (match n.required_during_scheduling_ignored_during_execution with
             | some t => t.get_spec
             | none => Except.ok none) with
      | .error e => .error e
      | .ok rq => .ok (some ⟨pr, rq⟩)
  else .ok none

/-- `Affinity`: the three optional category builders. -/
structure Affinity where
  pod_affinity : Option PodAffinity
  pod_anti_affinity : Option PodAntiAffinity
  node_affinity : Option NodeAffinity
deriving DecidableEq, Repr

/-- `Affinity.get_spec`: absent iff all three category fields are `None`;
otherwise each present category is materialized (whatever it yields,
including `None`) into the wire record. -/
def Affinity.get_spec (a : Affinity) : Except PyErr (Option ArgoAffinity) :=
  if a.pod_affinity.isSome || a.pod_anti_affinity.isSome
      || a.node_affinity.isSome then
    match (match a.pod_affinity with
           | some x => x.get_spec
           | none => Except.ok none) with
    | .error e => .error e
    | .ok pa =>
      match (match a.pod_anti_affinity with
             | some x => x.get_spec
             | none => Except.ok none) with
      | .error e => .error e
      | .ok paa =>
        match (match a.node_affinity with
               | some x => x.get_spec
               | none => Except.ok none) with
        | .error e => .error e
        | .ok na => .ok (some ⟨pa, paa, na⟩)
  else .ok none

/-! ## Workflow service (`hera/v1/workflow_service.py`)

The HTTP layer is external: each operation is embedded as the argument
tuple it passes to the generated SDK call (`create_workflow`,
`delete_workflow`) or the string it assembles. -/

/-- `IoArgoprojWorkflowV1alpha1Workflow`: an external SDK payload the
service forwards unchanged, kept abstract. -/
structure Workflow where
  payload : String
deriving DecidableEq, Repr

/-- `IoArgoprojWorkflowV1alpha1WorkflowCreateRequest(workflow=…,
namespace=…)`. -/
structure WorkflowCreateRequest where
  workflow : Workflow
  target_namespace : String
deriving DecidableEq, Repr

/-- `WorkflowService`: stores `self._domain` and `self._namespace`; the
token only configures the HTTP client and is kept as a plain field. -/
structure WorkflowService where
  _domain : String
  _token : String
  _namespace : String
deriving DecidableEq, Repr

/-- `WorkflowService.__init__(domain, token, namespace)`. -/
def WorkflowService.init (domain token ns : String) : WorkflowService :=
  ⟨domain, token, ns⟩

/-- The constructor with its `namespace` parameter left to its default
value `'default'`. -/
def WorkflowService.init_default (domain token : String) : WorkflowService :=
  WorkflowService.init domain token "default"

/-- `WorkflowService.submit(workflow, namespace)`: the pair of arguments
passed to `create_workflow` — the path namespace and the create request,
both built from the `namespace` parameter, never from
`self._namespace`. -/
def WorkflowService.submit (_s : WorkflowService) (workflow : Workflow)
    (ns : String) : String × WorkflowCreateRequest :=
  (ns, ⟨workflow, ns⟩)

/-- `submit` with its `namespace` parameter left to its default value
`'default'`. -/
def WorkflowService.submit_default (s : WorkflowService)
    (workflow : Workflow) : String × WorkflowCreateRequest :=
  s.submit workflow "default"

/-- `WorkflowService.delete(name)`: the pair of arguments passed to
`delete_workflow(self._namespace, name)`; there is no per-call namespace
parameter. -/
def WorkflowService.delete (s : WorkflowService) (name : String) :
    String × String :=
  (s._namespace, name)

/-- `WorkflowService.get_workflow_link(name)`: the assembled URL, built
from `self._domain` and `self._namespace`. -/
def WorkflowService.get_workflow_link (s : WorkflowService)
    (name : String) : String :=
  "https://" ++ s._domain ++ "/workflows/" ++ s._namespace ++ "/" ++ name
    ++ "?tab=workflow"

/-! ## State-threading translation of the `get_spec` methods

Python objects are mutable references, so a faithful check that
`get_spec` mutates nothing re-translates each method threading the
receiver (and every child receiver reachable from it) through the call:
`get_spec_st` returns the method's result together with the receiver as
it stands after the call.  The source methods contain no attribute
assignment, which the theorems below confirm by proving each
`get_spec_st` returns its receiver unchanged and its result equal to the
pure translation's. -/

/-- State-threading embedding of `[x.get_spec() for x in l]` for a child
method that cannot raise. -/
def mapStP (f : α → β × α) : List α → List β × List α
  | [] => ([], [])
  | x :: xs =>
    let (b, x2) := f x
    let (bs, xs2) := mapStP f xs
    (b :: bs, x2 :: xs2)

/-- State-threading embedding of `[x.get_spec() for x in l]` for a child
method that may raise: evaluation stops at the first exception, receivers
already visited keep their post-call state. -/
def mapSt (f : α → Except PyErr β × α) :
    List α → Except PyErr (List β) × List α
  | [] => (.ok [], [])
  | x :: xs =>
    match f x with
    | (.ok b, x2) =>
      match mapSt f xs with
      | (.ok bs, xs2) => (.ok (b :: bs), x2 :: xs2)
      | (.error e, xs2) => (.error e, x2 :: xs2)
    | (.error e, x2) => (.error e, x2 :: xs)

/-- State-threading embedding of
`[x.get_spec() for x in l] if l is not None else None`. -/
def optListSt (f : α → Except PyErr β × α) :
    Option (List α) → Except PyErr (Option (List β)) × Option (List α)
  | some l =>
    match mapSt f l with
    | (.ok bs, l2) => (.ok (some bs), some l2)
    | (.error e, l2) => (.error e, some l2)
  | none => (.ok none, none)

/-- State-threading `NodeSelectorRequirement.get_spec`. -/
def NodeSelectorRequirement.get_spec_st (r : NodeSelectorRequirement) :
    Option ArgoNodeSelectorRequirement × NodeSelectorRequirement :=
  (match r.values with
   | some v => some ⟨v⟩
   | none => none, r)

/-- State-threading `NodeSelectorTerm.get_spec`. -/
def NodeSelectorTerm.get_spec_st (t : NodeSelectorTerm) :
    Except PyErr (Option ArgoNodeSelectorTerm) × NodeSelectorTerm :=
  if t.expressions.isSome || t.fields.isSome then
    match t.expressions with
    | some es =>
      let (mes, es2) := mapStP NodeSelectorRequirement.get_spec_st es
      match t.fields with
      | some fs =>
        let (mfs, fs2) := mapStP NodeSelectorRequirement.get_spec_st fs
        (.ok (some ⟨mes, mfs⟩), ⟨some es2, some fs2⟩)
      | none => (.error .noneNotIterable, { t with expressions := some es2 })
    | none => (.error .noneNotIterable, t)
  else (.ok none, t)

/-- State-threading `PreferredSchedulingTerm.get_spec`. -/
def PreferredSchedulingTerm.get_spec_st (p : PreferredSchedulingTerm) :
    Except PyErr ArgoPreferredSchedulingTerm × PreferredSchedulingTerm :=
  match mapSt NodeSelectorTerm.get_spec_st p.node_selector_terms with
  | (.ok ts, l2) => (.ok ⟨⟨ts⟩, p.weight⟩, { p with node_selector_terms := l2 })
  | (.error e, l2) => (.error e, { p with node_selector_terms := l2 })

/-- State-threading `LabelSelectorRequirement.get_spec`. -/
def LabelSelectorRequirement.get_spec_st (r : LabelSelectorRequirement) :
    ArgoLabelSelectorRequirement × LabelSelectorRequirement :=
  (⟨r.key, r.operator.value, r.values⟩, r)

/-- State-threading `LabelSelector.get_spec`. -/
def LabelSelector.get_spec_st (s : LabelSelector) :
    Except PyErr (Option ArgoLabelSelector) × LabelSelector :=
  if s.match_expressions.isSome || s.match_labels.isSome then
    match s.match_expressions with
    | some es =>
      let (res, es2) := mapStP LabelSelectorRequirement.get_spec_st es
      (.ok (some ⟨res, none⟩), { s with match_expressions := some es2 })
    | none => (.error .noneNotIterable, s)
  else (.ok none, s)

/-- State-threading `PodAffinityTerm.get_spec`. -/
def PodAffinityTerm.get_spec_st (t : PodAffinityTerm) :
    Except PyErr ArgoPodAffinityTerm × PodAffinityTerm :=
  match (match t.label_selector with
         | some s =>
           match s.get_spec_st with
           | (r, s2) => (r, some s2)
         | none => (Except.ok none, none)) with
  | (.error e, ls2) => (.error e, { t with label_selector := ls2 })
  | (.ok ls, ls2) =>
    match (match t.namespace_selector with
           | some s =>
             match s.get_spec_st with
             | (r, s2) => (r, some s2)
           | none => (Except.ok none, none)) with
    | (.error e, ns2) =>
      (.error e, { t with label_selector := ls2, namespace_selector := ns2 })
    | (.ok ns, ns2) =>
      (.ok ⟨t.topology_key, ls, ns, t.namespaces⟩,
       { t with label_selector := ls2, namespace_selector := ns2 })

/-- State-threading `WeightedPodAffinityTerm.get_spec`. -/
def WeightedPodAffinityTerm.get_spec_st (w : WeightedPodAffinityTerm) :
    Except PyErr ArgoWeightedPodAffinityTerm × WeightedPodAffinityTerm :=
  match w.pod_affinity_term.get_spec_st with
  | (.ok t, t2) => (.ok ⟨t, w.weight⟩, { w with pod_affinity_term := t2 })
  | (.error e, t2) => (.error e, { w with pod_affinity_term := t2 })

/-- State-threading `PodAffinity.get_spec`. -/
def PodAffinity.get_spec_st (p : PodAffinity) :
    Except PyErr (Option ArgoPodAffinity) × PodAffinity :=
  if p.preferred_during_scheduling_ignored_during_execution.isSome
      || p.required_during_scheduling_ignored_during_execution.isSome then
    match optListSt WeightedPodAffinityTerm.get_spec_st
        p.preferred_during_scheduling_ignored_during_execution with
    | (.error e, pr2) =>
      (.error e,
       { p with preferred_during_scheduling_ignored_during_execution := pr2 })
    | (.ok pr, pr2) =>
      match optListSt PodAffinityTerm.get_spec_st
          p.required_during_scheduling_ignored_during_execution with
      | (.error e, rq2) =>
        (.error e,
         { p with
            preferred_during_scheduling_ignored_during_execution := pr2,
            required_during_scheduling_ignored_during_execution := rq2 })
      | (.ok rq, rq2) =>
        (.ok (some ⟨pr, rq⟩),
         { p with
            preferred_during_scheduling_ignored_during_execution := pr2,
            required_during_scheduling_ignored_during_execution := rq2 })
  else (.ok none, p)

/-- State-threading `PodAntiAffinity.get_spec`. -/
def PodAntiAffinity.get_spec_st (p : PodAntiAffinity) :
    Except PyErr (Option ArgoPodAntiAffinity) × PodAntiAffinity :=
  if p.preferred_during_scheduling_ignored_during_execution.isSome
      || p.required_during_scheduling_ignored_during_execution.isSome then
    match optListSt WeightedPodAffinityTerm.get_spec_st
        p.preferred_during_scheduling_ignored_during_execution with
    | (.error e, pr2) =>
      (.error e,
       { p with preferred_during_scheduling_ignored_during_execution := pr2 })
    | (.ok pr, pr2) =>
      match optListSt PodAffinityTerm.get_spec_st
          p.required_during_scheduling_ignored_during_execution with
      | (.error e, rq2) =>
        (.error e,
         { p with
            preferred_during_scheduling_ignored_during_execution := pr2,
            required_during_scheduling_ignored_during_execution := rq2 })
      | (.ok rq, rq2) =>
        (.ok (some ⟨pr, rq⟩),
         { p with
            preferred_during_scheduling_ignored_during_execution := pr2,
            required_during_scheduling_ignored_during_execution := rq2 })
  else (.ok none, p)

/-- State-threading `NodeAffinity.get_spec`. -/
def NodeAffinity.get_spec_st (n : NodeAffinity) :
    Except PyErr (Option ArgoNodeAffinity) × NodeAffinity :=
  if n.preferred_during_scheduling_ignored_during_execution.isSome
      || n.required_during_scheduling_ignored_during_execution.isSome then
    match (match n.preferred_during_scheduling_ignored_during_execution with
           | some l =>
             if l = [] then (Except.ok none, some l)
             else
               match mapSt PreferredSchedulingTerm.get_spec_st l with
               | (.ok ts, l2) => (.ok (some ts), some l2)
               | (.error e, l2) => (.error e, some l2)
           | none => (Except.ok none, none)) with
    | (.error e, pr2) =>
      (.error e,
       { n with preferred_during_scheduling_ignored_during_execution := pr2 })
    | (.ok pr, pr2) =>
      match (match n.required_during_scheduling_ignored_during_execution with
             | some t =>
               match t.get_spec_st with
               | (r, t2) => (r, some t2)
             | none => (Except.ok none, none)) with
      | (.error e, rq2) =>
        (.error e,
         { n with
            preferred_during_scheduling_ignored_during_execution := pr2,
            required_during_scheduling_ignored_during_execution := rq2 })
      | (.ok rq, rq2) =>
        (.ok (some ⟨pr, rq⟩),
         { n with
            preferred_during_scheduling_ignored_during_execution := pr2,
            required_during_scheduling_ignored_during_execution := rq2 })
  else (.ok none, n)

/-- State-threading `Affinity.get_spec`. -/
def Affinity.get_spec_st (a : Affinity) :
    Except PyErr (Option ArgoAffinity) × Affinity :=
  if a.pod_affinity.isSome || a.pod_anti_affinity.isSome
      || a.node_affinity.isSome then
    match (match a.pod_affinity with
           | some x =>
             match x.get_spec_st with
             | (r, x2) => (r, some x2)
           | none => (Except.ok none, none)) with
    | (.error e, pa2) => (.error e, { a with pod_affinity := pa2 })
    | (.ok pa, pa2) =>
      match (match a.pod_anti_affinity with
             | some x =>
               match x.get_spec_st with
               | (r, x2) => (r, some x2)
             | none => (Except.ok none, none)) with
      | (.error e, paa2) =>
        (.error e, { a with pod_affinity := pa2, pod_anti_affinity := paa2 })
      | (.ok paa, paa2) =>
        match (match a.node_affinity with
               | some x =>
                 match x.get_spec_st with
                 | (r, x2) => (r, some x2)
               | none => (Except.ok none, none)) with
        | (.error e, na2) =>
          (.error e,
           { a with
              pod_affinity := pa2, pod_anti_affinity := paa2,
              node_affinity := na2 })
        | (.ok na, na2) =>
          (.ok (some ⟨pa, paa, na⟩),
           { a with
              pod_affinity := pa2, pod_anti_affinity := paa2,
              node_affinity := na2 })
  else (.ok none, a)

/-! ## Purity of the state-threading translation -/

/-- A raise-free child method that returns its receiver unchanged lifts
through a list comprehension. -/
theorem mapStP_pure (f : α → β × α) (g : α → β) (h : ∀ a, f a = (g a, a)) :
    ∀ l : List α, mapStP f l = (l.map g, l) := by
  intro l
  induction l with
  | nil => rfl
  | cons x xs ih => simp [mapStP, h, ih]

/-- A raising child method that returns its receiver unchanged lifts
through a list comprehension. -/
theorem mapSt_pure (f : α → Except PyErr β × α) (g : α → Except PyErr β)
    (h : ∀ a, f a = (g a, a)) :
    ∀ l : List α, mapSt f l = (mapEx g l, l) := by
  intro l
  induction l with
  | nil => rfl
  | cons x xs ih =>
    simp only [mapSt, mapEx, h, ih]
    cases g x <;> cases mapEx g xs <;> simp

/-- `optListSt` agrees with `optListEx` for a non-mutating child. -/
theorem optListSt_pure (f : α → Except PyErr β × α)
    (g : α → Except PyErr β) (h : ∀ a, f a = (g a, a)) :
    ∀ o : Option (List α), optListSt f o = (optListEx g o, o) := by
  intro o
  cases o with
  | none => rfl
  | some l =>
    simp only [optListSt, optListEx, mapSt_pure f g h l]
    cases mapEx g l <;> simp

/-- `NodeSelectorRequirement.get_spec` mutates nothing. -/
theorem nodeSelectorRequirement_st (r : NodeSelectorRequirement) :
    r.get_spec_st = (r.get_spec, r) := rfl

/-- `NodeSelectorTerm.get_spec` mutates nothing. -/
theorem nodeSelectorTerm_st (t : NodeSelectorTerm) :
    t.get_spec_st = (t.get_spec, t) := by
  obtain ⟨es, fs⟩ := t
  cases es <;> cases fs <;>
    simp [NodeSelectorTerm.get_spec_st, NodeSelectorTerm.get_spec,
      mapStP_pure NodeSelectorRequirement.get_spec_st
        NodeSelectorRequirement.get_spec nodeSelectorRequirement_st]

/-- `PreferredSchedulingTerm.get_spec` mutates nothing. -/
theorem preferredSchedulingTerm_st (p : PreferredSchedulingTerm) :
    p.get_spec_st = (p.get_spec, p) := by
  obtain ⟨ts, w⟩ := p
  simp only [PreferredSchedulingTerm.get_spec_st,
    PreferredSchedulingTerm.get_spec,
    mapSt_pure NodeSelectorTerm.get_spec_st NodeSelectorTerm.get_spec
      nodeSelectorTerm_st]
  cases mapEx NodeSelectorTerm.get_spec ts <;> simp

/-- `LabelSelectorRequirement.get_spec` mutates nothing. -/
theorem labelSelectorRequirement_st (r : LabelSelectorRequirement) :
    r.get_spec_st = (r.get_spec, r) := rfl

/-- `LabelSelector.get_spec` mutates nothing. -/
theorem labelSelector_st (s : LabelSelector) :
    s.get_spec_st = (s.get_spec, s) := by
  obtain ⟨es, ml⟩ := s
  cases es <;> cases ml <;>
    simp [LabelSelector.get_spec_st, LabelSelector.get_spec,
      mapStP_pure LabelSelectorRequirement.get_spec_st
        LabelSelectorRequirement.get_spec labelSelectorRequirement_st]

/-- `PodAffinityTerm.get_spec` mutates nothing. -/
theorem podAffinityTerm_st (t : PodAffinityTerm) :
    t.get_spec_st = (t.get_spec, t) := by
  obtain ⟨tk, lsel, nsel, nss⟩ := t
  cases lsel <;> cases nsel <;>
    simp only [PodAffinityTerm.get_spec_st, PodAffinityTerm.get_spec,
      labelSelector_st] <;>
    (repeat' split) <;> simp_all

/-- `WeightedPodAffinityTerm.get_spec` mutates nothing. -/
theorem weightedPodAffinityTerm_st (w : WeightedPodAffinityTerm) :
    w.get_spec_st = (w.get_spec, w) := by
  obtain ⟨t, wt⟩ := w
  simp only [WeightedPodAffinityTerm.get_spec_st,
    WeightedPodAffinityTerm.get_spec, podAffinityTerm_st]
  cases PodAffinityTerm.get_spec t <;> simp

/-- `PodAffinity.get_spec` mutates nothing. -/
theorem podAffinity_st (p : PodAffinity) :
    p.get_spec_st = (p.get_spec, p) := by
  obtain ⟨pr, rq⟩ := p
  cases pr <;> cases rq <;>
    simp only [PodAffinity.get_spec_st, PodAffinity.get_spec,
      optListSt_pure WeightedPodAffinityTerm.get_spec_st
        WeightedPodAffinityTerm.get_spec weightedPodAffinityTerm_st,
      optListSt_pure PodAffinityTerm.get_spec_st PodAffinityTerm.get_spec
        podAffinityTerm_st] <;>
    (repeat' split) <;> simp_all

/-- `PodAntiAffinity.get_spec` mutates nothing. -/
theorem podAntiAffinity_st (p : PodAntiAffinity) :
    p.get_spec_st = (p.get_spec, p) := by
  obtain ⟨pr, rq⟩ := p
  cases pr <;> cases rq <;>
    simp only [PodAntiAffinity.get_spec_st, PodAntiAffinity.get_spec,
      optListSt_pure WeightedPodAffinityTerm.get_spec_st
        WeightedPodAffinityTerm.get_spec weightedPodAffinityTerm_st,
      optListSt_pure PodAffinityTerm.get_spec_st PodAffinityTerm.get_spec
        podAffinityTerm_st] <;>
    (repeat' split) <;> simp_all

/-- `NodeAffinity.get_spec` mutates nothing. -/
theorem nodeAffinity_st (n : NodeAffinity) :
    n.get_spec_st = (n.get_spec, n) := by
  obtain ⟨pr, rq⟩ := n
  have hpr := mapSt_pure PreferredSchedulingTerm.get_spec_st
    PreferredSchedulingTerm.get_spec preferredSchedulingTerm_st
  cases pr with
  | none =>
    cases rq with
    | none => rfl
    | some t =>
      simp only [NodeAffinity.get_spec_st, NodeAffinity.get_spec,
        nodeSelectorTerm_st]
      cases h : NodeSelectorTerm.get_spec t <;> simp [h]
  | some l =>
    cases rq with
    | none =>
      cases l with
      | nil => rfl
      | cons x xs =>
        simp only [NodeAffinity.get_spec_st, NodeAffinity.get_spec, hpr]
        cases h : mapEx PreferredSchedulingTerm.get_spec (x :: xs) <;>
          simp [h]
    | some t =>
      cases l with
      | nil =>
        simp only [NodeAffinity.get_spec_st, NodeAffinity.get_spec,
          nodeSelectorTerm_st]
        cases h : NodeSelectorTerm.get_spec t <;> simp [h]
      | cons x xs =>
        simp only [NodeAffinity.get_spec_st, NodeAffinity.get_spec, hpr,
          nodeSelectorTerm_st]
        cases h : mapEx PreferredSchedulingTerm.get_spec (x :: xs) <;>
          cases h2 : NodeSelectorTerm.get_spec t <;> simp [h, h2]

/-- `Affinity.get_spec` mutates nothing. -/
theorem affinity_st (a : Affinity) :
    a.get_spec_st = (a.get_spec, a) := by
  obtain ⟨pa, paa, na⟩ := a
  cases pa <;> cases paa <;> cases na <;>
    simp only [Affinity.get_spec_st, Affinity.get_spec, podAffinity_st,
      podAntiAffinity_st, nodeAffinity_st] <;>
    (repeat' split) <;> simp_all

/-! ## Claims -/

/-- C1 counterexample: every category builder with no optional field set
materializes to absent, yet an `Affinity` holding three such present
builders does not collapse to absent — it materializes to a present
record whose three wire fields are all `None` placeholders, so absence
does not propagate upward as the claim states. -/
theorem affinity_absent_children_counterexample :
    PodAffinity.get_spec ⟨none, none⟩ = .ok none ∧
    PodAntiAffinity.get_spec ⟨none, none⟩ = .ok none ∧
    NodeAffinity.get_spec ⟨none, none⟩ = .ok none ∧
    Affinity.get_spec ⟨some ⟨none, none⟩, some ⟨none, none⟩,
      some ⟨none, none⟩⟩ ≠ .ok none ∧
    Affinity.get_spec ⟨some ⟨none, none⟩, some ⟨none, none⟩,
      some ⟨none, none⟩⟩ = .ok (some ⟨none, none, none⟩) := by
  refine ⟨rfl, rfl, rfl, ?_, rfl⟩
  decide

/-- C1 (amended): each node's `get_spec` returns absent iff every one of
its declared optional fields is `None`; but absence does not propagate
upward: an `Affinity` whose three category fields are present objects
that each materialize to absent returns a present wire record of `None`
placeholders, not absent. -/
theorem materialize_absent_iff_fields_none :
    (∀ r : NodeSelectorRequirement, r.get_spec = none ↔ r.values = none) ∧
    (∀ t : NodeSelectorTerm,
      t.get_spec = .ok none ↔ t.expressions = none ∧ t.fields = none) ∧
    (∀ s : LabelSelector,
      s.get_spec = .ok none ↔
        s.match_expressions = none ∧ s.match_labels = none) ∧
    (∀ p : PodAffinity,
      p.get_spec = .ok none ↔
        p.preferred_during_scheduling_ignored_during_execution = none ∧
        p.required_during_scheduling_ignored_during_execution = none) ∧
    (∀ p : PodAntiAffinity,
      p.get_spec = .ok none ↔
        p.preferred_during_scheduling_ignored_during_execution = none ∧
        p.required_during_scheduling_ignored_during_execution = none) ∧
    (∀ n : NodeAffinity,
      n.get_spec = .ok none ↔
        n.preferred_during_scheduling_ignored_during_execution = none ∧
        n.required_during_scheduling_ignored_during_execution = none) ∧
    (∀ a : Affinity,
      a.get_spec = .ok none ↔
        a.pod_affinity = none ∧ a.pod_anti_affinity = none ∧
        a.node_affinity = none) ∧
    Affinity.get_spec ⟨some ⟨none, none⟩, some ⟨none, none⟩,
      some ⟨none, none⟩⟩ = .ok (some ⟨none, none, none⟩) := by
  refine ⟨?_, ?_, ?_, ?_, ?_, ?_, ?_, rfl⟩
  · intro r
    obtain ⟨v⟩ := r
    cases v <;> simp [NodeSelectorRequirement.get_spec]
  · intro t
    obtain ⟨es, fs⟩ := t
    cases es <;> cases fs <;> simp [NodeSelectorTerm.get_spec]
  · intro s
    obtain ⟨es, ml⟩ := s
    cases es <;> cases ml <;> simp [LabelSelector.get_spec]
  · intro p
    obtain ⟨pr, rq⟩ := p
    cases pr <;> cases rq <;> simp only [PodAffinity.get_spec] <;>
      (repeat' split) <;> simp_all
  · intro p
    obtain ⟨pr, rq⟩ := p
    cases pr <;> cases rq <;> simp only [PodAntiAffinity.get_spec] <;>
      (repeat' split) <;> simp_all
  · intro n
    obtain ⟨pr, rq⟩ := n
    cases pr <;> cases rq <;> simp only [NodeAffinity.get_spec] <;>
      (repeat' split) <;> simp_all
  · intro a
    obtain ⟨pa, paa, na⟩ := a
    cases pa <;> cases paa <;> cases na <;> simp only [Affinity.get_spec] <;>
      (repeat' split) <;> simp_all

/-- C2 (code bug): with only the required term set,
`NodeAffinity.get_spec` assigns the bare materialized
`ArgoNodeSelectorTerm` (a record of match-expression/match-field lists)
to the required wire field, while the analogous preferred path
(`PreferredSchedulingTerm.get_spec`) wraps its terms in the composite
`ArgoNodeSelector` carrying a `node_selector_terms` list — the nesting
the target schema requires for the required field is missing. -/
theorem nodeAffinity_required_bare_term_eval :
    NodeAffinity.get_spec ⟨none, some ⟨some [⟨some ["zone-a"]⟩], some []⟩⟩ =
      .ok (some ⟨none, some ⟨[some ⟨["zone-a"]⟩], []⟩⟩) ∧
    PreferredSchedulingTerm.get_spec
        ⟨[⟨some [⟨some ["zone-a"]⟩], some []⟩], 1⟩ =
      .ok ⟨⟨[some ⟨[some ⟨["zone-a"]⟩], []⟩]⟩, 1⟩ := ⟨rfl, rfl⟩

/-- C3 (code bug): a `LabelSelector` with only `match_labels` set raises
`TypeError` in `get_spec` (the comprehension iterates the `None`
`match_expressions`); and even with an empty expression list supplied,
`match_labels` is never forwarded to the wire record. -/
theorem labelSelector_match_labels_eval :
    LabelSelector.get_spec ⟨none, some [("app", "x")]⟩ =
      .error .noneNotIterable ∧
    LabelSelector.get_spec ⟨some [], some [("app", "x")]⟩ =
      .ok (some ⟨[], none⟩) := ⟨rfl, rfl⟩

/-- C4 (code bug): a `NodeSelectorTerm` whose field list is set but whose
expression list is absent raises `TypeError` in `get_spec` instead of
returning a record. -/
theorem nodeSelectorTerm_single_list_type_error :
    NodeSelectorTerm.get_spec ⟨none, some [⟨some ["ssd"]⟩]⟩ =
      .error .noneNotIterable := rfl

/-- C5 counterexample: materialize does have an error condition of its
own — a `NodeSelectorTerm` built the default way (expressions set,
`fields` left to its `None` default) raises `TypeError` when
materialized. -/
theorem materialize_error_condition_counterexample :
    NodeSelectorTerm.get_spec ⟨some [⟨some ["gpu"]⟩], none⟩ =
      .error .noneNotIterable := rfl

/-- C5 (amended): constructing a `PodAffinityTerm` with the mandatory
topology key left unset is rejected at construction time with a
`TypeError` (missing required argument), and construction with the key
present always succeeds, so that failure is never deferred to
materialization; materialize, however, does have error conditions of its
own (`NodeSelectorTerm.get_spec` / `LabelSelector.get_spec` raise when
exactly one of their two optional collection fields is set). -/
theorem construction_rejects_missing_topology_key :
    PodAffinityTerm.construct none none none none =
      .error .missingRequiredArgument ∧
    (∀ (k : String) (ls ns : Option LabelSelector)
        (nss : Option (List String)),
      PodAffinityTerm.construct (some k) ls ns nss = .ok ⟨k, ls, ns, nss⟩) ∧
    LabelSelector.get_spec ⟨none, some []⟩ = .error .noneNotIterable :=
  ⟨rfl, fun _ _ _ _ => rfl, rfl⟩

/-- C6 (confirmed): every node type's `get_spec`, translated with its
receiver state threaded through the call (`get_spec_st`), returns the
pure translation's result together with the receiver unchanged — the
method mutates nothing and repeated invocations yield structurally equal
output; for the root `Affinity` the re-invocation equality is also stated
directly. -/
theorem get_spec_pure_no_mutation :
    (∀ r : NodeSelectorRequirement, r.get_spec_st = (r.get_spec, r)) ∧
    (∀ t : NodeSelectorTerm, t.get_spec_st = (t.get_spec, t)) ∧
    (∀ p : PreferredSchedulingTerm, p.get_spec_st = (p.get_spec, p)) ∧
    (∀ r : LabelSelectorRequirement, r.get_spec_st = (r.get_spec, r)) ∧
    (∀ s : LabelSelector, s.get_spec_st = (s.get_spec, s)) ∧
    (∀ t : PodAffinityTerm, t.get_spec_st = (t.get_spec, t)) ∧
    (∀ w : WeightedPodAffinityTerm, w.get_spec_st = (w.get_spec, w)) ∧
    (∀ p : PodAffinity, p.get_spec_st = (p.get_spec, p)) ∧
    (∀ p : PodAntiAffinity, p.get_spec_st = (p.get_spec, p)) ∧
    (∀ n : NodeAffinity, n.get_spec_st = (n.get_spec, n)) ∧
    (∀ a : Affinity, a.get_spec_st = (a.get_spec, a) ∧
      (a.get_spec_st.2.get_spec_st.1 = a.get_spec_st.1)) :=
  ⟨nodeSelectorRequirement_st, nodeSelectorTerm_st,
   preferredSchedulingTerm_st, labelSelectorRequirement_st,
   labelSelector_st, podAffinityTerm_st, weightedPodAffinityTerm_st,
   podAffinity_st, podAntiAffinity_st, nodeAffinity_st,
   fun a => ⟨affinity_st a, by simp [affinity_st]⟩⟩

/-- C7 (confirmed): `LabelSelectorRequirement.get_spec` unconditionally
returns the `{key, operator, values}` wire record with the operator
serialized through `LabelOperator.value`, whose image is exactly the four
literal strings; in particular `NotIn` serializes to `"NotIn"`. -/
theorem labelOperator_serialization :
    (∀ r : LabelSelectorRequirement,
      r.get_spec = ⟨r.key, r.operator.value, r.values⟩) ∧
    (∀ op : LabelOperator,
      op.value = "In" ∨ op.value = "NotIn" ∨ op.value = "Exists" ∨
        op.value = "DoesNotExist") ∧
    LabelOperator.NotIn.value = "NotIn" := by
  refine ⟨fun _ => rfl, ?_, rfl⟩
  intro op
  cases op with
  | In => exact Or.inl rfl
  | NotIn => exact Or.inr (Or.inl rfl)
  | Exists => exact Or.inr (Or.inr (Or.inl rfl))
  | DoesNotExist => exact Or.inr (Or.inr (Or.inr rfl))

/-- C8 (confirmed): a `WeightedPodAffinityTerm` with weight 50 around a
`PodAffinityTerm` with topology key `kubernetes.io/hostname` and no
selectors materializes to exactly the weight-50 record whose inner term
carries only the topology key, all selector fields absent. -/
theorem weightedPodAffinityTerm_scenario :
    WeightedPodAffinityTerm.get_spec
        ⟨⟨"kubernetes.io/hostname", none, none, none⟩, 50⟩ =
      .ok ⟨⟨"kubernetes.io/hostname", none, none, none⟩, 50⟩ := rfl

/-- C9 (confirmed): an empty-but-present preferred list is treated
asymmetrically — `NodeAffinity` tests it by truthiness, so `[]` maps to
an absent wire field, while `PodAffinity` tests `is not None`, so `[]`
maps to a present empty array. -/
theorem empty_preferred_list_truthiness_divergence :
    NodeAffinity.get_spec ⟨some [], none⟩ = .ok (some ⟨none, none⟩) ∧
    PodAffinity.get_spec ⟨some [], none⟩ = .ok (some ⟨some [], none⟩) :=
  ⟨rfl, rfl⟩

/-- C10 (confirmed): `submit` targets its per-call namespace parameter
(defaulting to `'default'`) in both the path argument and the create
request and is independent of the constructor-supplied namespace, while
`delete` and `get_workflow_link` always use the constructor-supplied
namespace and take no per-call namespace parameter. -/
theorem workflowService_namespace_targets :
    (∀ (d t n ns : String) (w : Workflow),
      WorkflowService.submit ⟨d, t, n⟩ w ns = (ns, ⟨w, ns⟩)) ∧
    (∀ (d t n n2 ns : String) (w : Workflow),
      WorkflowService.submit ⟨d, t, n⟩ w ns =
        WorkflowService.submit ⟨d, t, n2⟩ w ns) ∧
    (∀ (d t n : String) (w : Workflow),
      WorkflowService.submit_default ⟨d, t, n⟩ w =
        WorkflowService.submit ⟨d, t, n⟩ w "default") ∧
    (∀ d t n nm : String, WorkflowService.delete ⟨d, t, n⟩ nm = (n, nm)) ∧
    (∀ d t n nm : String,
      WorkflowService.get_workflow_link ⟨d, t, n⟩ nm =
        "https://" ++ d ++ "/workflows/" ++ n ++ "/" ++ nm
          ++ "?tab=workflow") ∧
    (∀ d t : String, WorkflowService.init_default d t = ⟨d, t, "default"⟩) :=
  ⟨fun _ _ _ _ _ => rfl, fun _ _ _ _ _ _ => rfl, fun _ _ _ _ => rfl,
   fun _ _ _ _ => rfl, fun _ _ _ _ => rfl, fun _ _ => rfl⟩
